import Mathlib

/-!
Shallow embedding of the VirtualTryOn mobile client (src/VirtualTryOn), centred
on the try-on screen `app/try-on.tsx`: the catalog lookup, route-param
normalization, the background person-image preprocessing call, and the `runTryOn`
submission pipeline with its garment resolution, payload construction, timeout
and error classification.  Strings are modelled as `List Char` so that every
definition evaluates inside the kernel, and the JavaScript string operations
used by the source (`includes`, `startsWith`, `split`, `toLowerCase`,
truthiness) are given structurally recursive counterparts.
-/

namespace VirtualTryOn

/-- Strings of the embedded program, as character lists so `decide` can run them. -/
abbrev Str := List Char

deriving instance DecidableEq for Except

/-- JavaScript truthiness of a string: truthy iff non-empty. -/
def strTruthy (s : Str) : Bool := !s.isEmpty

/-- JavaScript truthiness of a nullable string (`null`/`undefined` are falsy). -/
def optTruthy : Option Str → Bool
  | none => false
  | some s => strTruthy s

/-- JavaScript `s.startsWith(p)`: first argument is the candidate prefix. -/
def strStartsWith : Str → Str → Bool
  | [], _ => true
  | _ :: _, [] => false
  | a :: as, b :: bs => a == b && strStartsWith as bs

/-- JavaScript `s.includes(needle)`: substring occurrence anywhere in `s`. -/
def strContains (needle : Str) : Str → Bool
  | [] => needle.isEmpty
  | c :: rest => strStartsWith needle (c :: rest) || strContains needle rest

/-- One cons step of the split: either start a fresh segment at a separator or
extend the current head segment. -/
def splitCons (c a : Char) (r : List Str) : List Str :=
  match r with
  | [] => [[a]]
  | b :: bs => if a == c then [] :: b :: bs else (a :: b) :: bs

/-- JavaScript `s.split(sep)` for a one-character separator. -/
def splitOnCharL (c : Char) : Str → List Str
  | [] => [[]]
  | a :: as => splitCons c a (splitOnCharL c as)

/-- Last element of a split result (JavaScript `Array.prototype.pop` on the
nonempty result of `split`). -/
def lastSeg : List Str → Str
  | [] => []
  | [x] => x
  | _ :: y :: l => lastSeg (y :: l)

/-- JavaScript `s.toLowerCase()` restricted to ASCII, as the source compares
against the ASCII literal `png`. -/
def strToLower (s : Str) : Str := s.map Char.toLower

/-- `clothUri.split('.').pop()` of the source. -/
def lastSplitDot (s : Str) : Str := lastSeg (splitOnCharL '.' s)

/-- Decimal rendering of a natural number (JavaScript template interpolation of
a number), via an explicit fuel so it reduces in the kernel. -/
def natToStrAux : Nat → Nat → Str
  | 0, _ => []
  | _ + 1, n =>
    if n < 10 then [Char.ofNat (48 + n)]
    else natToStrAux (n / 10) (n / 10) ++ [Char.ofNat (48 + n % 10)]

/-- Decimal rendering of a natural number. -/
def natToStr (n : Nat) : Str := natToStrAux n n

/-- Clothing categories of `constants/clothing.ts`. -/
inductive ClothType
  | upper
  | lower
  | overall
deriving DecidableEq

/-- `image` field of a catalog entry: a remote URL string or a bundled
`require(...)` asset id (the source types it `number | string`). -/
inductive ImageSource
  | url (u : Str)
  | bundled (assetId : Nat)
deriving DecidableEq

/-- A catalog entry of `constants/clothing.ts`. -/
structure ClothingItem where
  id : Str
  name : Str
  price : Str
  cloth_type : ClothType
  image : ImageSource
deriving DecidableEq

/-- The catalog literal of `src/VirtualTryOn/constants/clothing.ts`. -/
def CLOTHING_ITEMS : List ClothingItem :=
  [ { id := "1".data, name := "full suit".data, price := "$48".data, cloth_type := .overall,
      image := .url "https://res.cloudinary.com/dp3vs4mxa/image/upload/v1769873236/full_suit_hurxcg.png".data },
    { id := "2".data, name := "blue shirt".data, price := "$26".data, cloth_type := .upper,
      image := .url "https://res.cloudinary.com/dp3vs4mxa/image/upload/v1769873233/blue_shirt_xzvm4u.png".data },
    { id := "3".data, name := "colourfull-sweatshirt".data, price := "$25".data, cloth_type := .upper,
      image := .url "https://res.cloudinary.com/dp3vs4mxa/image/upload/v1769873233/colourfull-sweatshirt_v8mpbp.png".data },
    { id := "4".data, name := "Classic suit".data, price := "$45".data, cloth_type := .upper,
      image := .url "https://res.cloudinary.com/dp3vs4mxa/image/upload/v1769873233/green-tshirt_f3hnxr.png".data },
    { id := "5".data, name := "purple-shirt".data, price := "$28".data, cloth_type := .upper,
      image := .url "https://res.cloudinary.com/dp3vs4mxa/image/upload/v1769873233/purple-shirt_g9dnxn.png".data },
    { id := "6".data, name := "baggy black jeans".data, price := "$32".data, cloth_type := .lower,
      image := .url "https://res.cloudinary.com/dp3vs4mxa/image/upload/v1769873232/baggy_black_jeans_tjiqvm.png".data } ]

/-- `getClothingById` of `constants/clothing.ts`:
`CLOTHING_ITEMS.find((item) => item.id === id) ?? CLOTHING_ITEMS[0]`. -/
def getClothingById (id : Str) : ClothingItem :=
  (CLOTHING_ITEMS.find? (fun it => it.id == id)).getD (CLOTHING_ITEMS.get ⟨0, by decide⟩)

/-- The raw route-parameter shapes handled by `normalizeParam` in
`app/try-on.tsx` (expo-router can deliver a missing value, a string, or an
array of strings). -/
inductive RouteParam
  | missing
  | single (s : Str)
  | multiple (l : List Str)

/-- `normalizeParam` of `app/try-on.tsx`: `null`/`undefined` default to `'1'`;
strings pass through; a nonempty string array yields its head; an empty array
falls through to `String(value)`, the empty string. -/
def normalizeParam : RouteParam → Str
  | .missing => "1".data
  | .single s => s
  | .multiple [] => []
  | .multiple (x :: _) => x

/-- The `step` union of the screen:
`'choose' | 'camera' | 'upload' | 'preview' | 'result'`. -/
inductive Step
  | choose
  | camera
  | upload
  | preview
  | result
deriving DecidableEq

/-- The screen's React state relevant to the workflow: `step`, `capturedPhoto`,
`resultImage`, `loading`, `preprocessingLoading`, `preprocessingCacheKey`,
`tryOnError`. -/
structure AppState where
  step : Step
  capturedPhoto : Option Str
  resultImage : Option Str
  loading : Bool
  preprocessingLoading : Bool
  preprocessingCacheKey : Option Str
  tryOnError : Option Str
deriving DecidableEq

/-- How one `/api/preprocess-person` call can settle: the `fetch` (or the
`res.json()` read) throws, or a response arrives with an HTTP ok flag and a
parsed body carrying `success` and an optional `cache_key`. -/
inductive PreprocessOutcome
  | fetchFailed
  | response (ok : Bool) (success : Bool) (cacheKey : Option Str)
deriving DecidableEq

/-- The response handler of `preprocessPersonImage` in `app/try-on.tsx`:
on `res.ok` with `data?.success && data?.cache_key` it stores the key;
every other outcome only logs; `finally` clears `preprocessingLoading`.
Note it never compares the response against the currently held photo. -/
def preprocessSettle (o : PreprocessOutcome) (s : AppState) : AppState :=
  match o with
  | .fetchFailed => { s with preprocessingLoading := false }
  | .response ok success cacheKey =>
    if ok && success && optTruthy cacheKey then
      { s with preprocessingCacheKey := cacheKey, preprocessingLoading := false }
    else
      { s with preprocessingLoading := false }

/-- Whether a preprocess outcome is the one the handler treats as success. -/
def preprocessOutcomeOk : PreprocessOutcome → Bool
  | .fetchFailed => false
  | .response ok success cacheKey => ok && success && optTruthy cacheKey

/-- `TRY_ON_TIMEOUT_MS` of `app/try-on.tsx`. -/
def TRY_ON_TIMEOUT_MS : Nat := 180000

/-- `TRY_ON_URL`, with the source's final fallback base
`http://localhost:8000` (no configured `API_URL`, non-dev resolution). -/
def TRY_ON_URL : Str := "http://localhost:8000/api/try-on".data

/-- `API_BASE_URL` under the same environment resolution as `TRY_ON_URL`. -/
def API_BASE_URL : Str := "http://localhost:8000".data

/-- `__DEV__` flag; the embedding fixes a release build. -/
def DEV_BUILD : Bool := false

/-- Error body of a non-ok try-on response: either it parses as JSON with an
optional `detail` field, or it is raw text. -/
inductive ErrBody
  | json (detail : Option Str)
  | raw (text : Str)
deriving DecidableEq

/-- How the main try-on `fetch` transfer can settle, absent an abort: a thrown
network error carrying a name and message, or an HTTP response.  For a
response, `jsonImage` is the `imageBase64` view of the body read on the ok
path (`none` means `response.json()` throws; `some f` means it parses with
`imageBase64 = f`), and `errBody` is the `response.text()` view read on the
non-ok path. -/
inductive Transport
  | netError (name msg : Str)
  | response (status : Nat) (statusText : Str) (jsonImage : Option (Option Str)) (errBody : ErrBody)
deriving DecidableEq

/-- A try-on submission environment: the resolved cloth source
(`RNImage.resolveAssetSource` uri), the file-system cache directory and
`Date.now()` rendering used for the download target, the results of the
remote download / expo-asset resolution, the elapsed transfer time, and the
transport result. -/
structure SubmitEnv where
  rawUri : Str
  cacheDir : Str
  nowStr : Str
  download : Except Str Unit
  assetUri : Except Str Str
  elapsedMs : Nat
  transport : Transport

/-- `fetch` outcome after the `AbortController`: the 180 s timer fires and
aborts the transfer, or the transport settles first. -/
inductive FetchOutcome
  | aborted
  | settled (t : Transport)

/-- The abort timer semantics of `runTryOn`: the transfer is aborted exactly
when it has not settled within `TRY_ON_TIMEOUT_MS`. -/
def effectiveOutcome (env : SubmitEnv) : FetchOutcome :=
  if TRY_ON_TIMEOUT_MS ≤ env.elapsedMs then .aborted else .settled env.transport

/-- `const ext = rawUri.includes('.png') ? 'png' : 'jpg'` in `runTryOn`. -/
def remoteClothExt (rawUri : Str) : Str :=
  if strContains ".png".data rawUri then "png".data else "jpg".data

/-- The download target `${cacheDir}cloth-${Date.now()}.${ext}` in `runTryOn`. -/
def remoteClothFileUri (rawUri cacheDir nowStr : Str) : Str :=
  cacheDir ++ "cloth-".data ++ nowStr ++ ".".data ++ remoteClothExt rawUri

/-- Garment resolution of `runTryOn`: remote URLs are downloaded to the cache
file (failures rethrown with a `Could not download` prefix); bundled assets
resolve through expo-asset, with a missing/empty handle thrown inside the
`try` and rethrown with a `Could not load` prefix. -/
def resolveCloth (env : SubmitEnv) : Except Str Str :=
  if strStartsWith "http".data env.rawUri then
    match env.download with
    | .error m => .error ("Could not download cloth image: ".data ++ m)
    | .ok _ => .ok (remoteClothFileUri env.rawUri env.cacheDir env.nowStr)
  else
    match env.assetUri with
    | .error m => .error ("Could not load cloth image: ".data ++ m)
    | .ok u =>
      if strTruthy u then .ok u
      else .error "Could not load cloth image: Asset has no localUri or uri".data

/-- `const mime = clothUri.split('.').pop()?.toLowerCase() === 'png' ?
'image/png' : 'image/jpeg'` in `runTryOn`. -/
def mimeFor (clothUri : Str) : Str :=
  if strToLower (lastSplitDot clothUri) = "png".data then "image/png".data else "image/jpeg".data

/-- `` `cloth.${clothUri.split('.').pop()?.split('?')[0] || 'jpg'}` `` in
`runTryOn`. -/
def clothNameFor (clothUri : Str) : Str :=
  let ext0 := (splitOnCharL '?' (lastSplitDot clothUri)).headD []
  "cloth.".data ++ (if strTruthy ext0 then ext0 else "jpg".data)

/-- A JavaScript `Error` as the catch block reads it (`name`, `message`; the
`code` and `status` fields probed there are absent on these errors). -/
structure JsError where
  name : Str
  message : Str

/-- Error-message extraction for a non-ok response in `runTryOn`: parse the
body as JSON and use a truthy `detail`, else fall back on the first 100
characters of the raw body, the status text, and finally
`Request failed <status>`. -/
def errDetailMsg (status : Nat) (statusText : Str) : ErrBody → Str
  | .json d => if optTruthy d then d.getD [] else "Request failed ".data ++ natToStr status
  | .raw t =>
    let d := if strTruthy (t.take 100) then t.take 100 else statusText
    if strTruthy d then d else "Request failed ".data ++ natToStr status

/-- `formatErrorForAlert` of `app/try-on.tsx`. -/
def formatErrorForAlert (e : JsError) : Str :=
  if strTruthy e.name = true ∧ e.name ≠ "Error".data then
    "(".data ++ e.name ++ ") ".data ++ e.message
  else e.message

/-- The short alert text chosen for an aborted (timed-out) submission. -/
def timeoutAlertMsg : Str := "Try-on timed out. Check your connection and try again.".data

/-- `shortMsg` of the catch block: the timed-out text for an `AbortError`,
otherwise `formatErrorForAlert`. -/
def shortMsgFor (e : JsError) : Str :=
  if e.name = "AbortError".data then timeoutAlertMsg else formatErrorForAlert e

/-- `isNetworkFailed` test of the catch block. -/
def isNetworkFailed (e : JsError) : Bool :=
  strContains "network request failed".data (strToLower e.message)

/-- `devHint` of the catch block, under the fixed build environment. -/
def devHintFor (e : JsError) : Option Str :=
  if DEV_BUILD && isNetworkFailed e then
    some "Dev: start the backend; it must listen on 0.0.0.0:8000.".data
  else if !DEV_BUILD && (strContains "localhost".data API_BASE_URL
      || strContains "10.0.2.2".data API_BASE_URL) then
    some "Hint: APK may be using wrong URL. Set extra.API_URL in app.json and rebuild.".data
  else if !DEV_BUILD && isNetworkFailed e && strContains "runpod.net".data API_BASE_URL then
    some "RunPod: check the step log for 1.5 Connectivity.".data
  else none

/-- Newline join of the `fullDetail` parts. -/
def joinLines : List Str → Str
  | [] => []
  | [x] => x
  | x :: xs => x ++ ['\n'] ++ joinLines xs

/-- `fullDetail` of the catch block: optional type and message lines, the
request URL, and the optional environment hint, newline-joined. -/
def fullDetailFor (e : JsError) : Str :=
  joinLines
    ((if strTruthy e.name = true ∧ e.name ≠ "Error".data then ["Type: ".data ++ e.name] else [])
      ++ (if strTruthy e.message then ["Message: ".data ++ e.message] else [])
      ++ ["URL: ".data ++ TRY_ON_URL]
      ++ (match devHintFor e with | some h => [h] | none => []))

/-- `displayError = fullDetail || shortMsg || String(e)` of the catch block. -/
def displayErrorFor (e : JsError) : Str :=
  if strTruthy (fullDetailFor e) then fullDetailFor e
  else if strTruthy (shortMsgFor e) then shortMsgFor e
  else e.message

/-- The multipart body `runTryOn` submits: exactly the fields appended to the
`FormData` (`cache_key` or `person_image`, then `cloth_type`, then
`cloth_image` with uri, mime and name). -/
structure TryOnRequest where
  cache_key : Option Str
  person_image : Option Str
  cloth_image_uri : Str
  cloth_image_mime : Str
  cloth_image_name : Str
  cloth_type : ClothType
deriving DecidableEq

/-- Result of one `runTryOn` invocation: the screen state afterwards, the
request that was actually POSTed (if the flow reached `fetch`), and the text
passed to `Alert.alert('Error', ...)` if the catch block ran. -/
structure RunResult where
  state : AppState
  request : Option TryOnRequest
  alertMsg : Option Str

/-- The catch block of `runTryOn`: records `displayError` in `tryOnError`,
alerts `shortMsg`, and the `finally` clears `loading`.  `step`,
`capturedPhoto`, `resultImage` and the cache key are untouched. -/
def tryOnFail (s : AppState) (e : JsError) (req : Option TryOnRequest) : RunResult :=
  ⟨{ s with tryOnError := some (displayErrorFor e), loading := false }, req, some (shortMsgFor e)⟩

/-- HTTP `Response.ok`. -/
def httpOk (status : Nat) : Bool := 200 ≤ status && status < 300

/-- The `FormData` assembled by `runTryOn` once the garment uri is known:
the chosen person part, the cloth file with its inferred mime and name, and
the item's category. -/
def buildReq (item : ClothingItem) (cacheField personField : Option Str)
    (clothUri : Str) : TryOnRequest :=
  ⟨cacheField, personField, clothUri, mimeFor clothUri, clothNameFor clothUri, item.cloth_type⟩

/-- The ok-status tail of `runTryOn`: read `response.json()` (a body that is
not JSON throws), reject a missing or falsy `imageBase64` as
`Invalid response: no image`, and otherwise apply the success transition —
store the jpeg-prefixed data uri, clear the error, enter the result step. -/
def settleOkJson (s1 : AppState) (req : TryOnRequest) : Option (Option Str) → RunResult
  | none => tryOnFail s1 ⟨"SyntaxError".data, "JSON Parse error".data⟩ (some req)
  | some img =>
    if optTruthy img then
      ⟨{ s1 with tryOnError := none,
                 resultImage := some ("data:image/jpeg;base64,".data ++ img.getD []),
                 step := .result,
                 loading := false },
        some req, none⟩
    else
      tryOnFail s1 ⟨"Error".data, "Invalid response: no image".data⟩ (some req)

/-- How `runTryOn` handles the settlement of the POST it issued: an abort
becomes an `AbortError`, a thrown transfer error is rethrown as caught, a
non-ok status throws the extracted detail message, and an ok status proceeds
to the body. -/
def settleTryOn (s1 : AppState) (req : TryOnRequest) : FetchOutcome → RunResult
  | .aborted => tryOnFail s1 ⟨"AbortError".data, "Aborted".data⟩ (some req)
  | .settled (.netError n m) => tryOnFail s1 ⟨n, m⟩ (some req)
  | .settled (.response status statusText jsonImage errBody) =>
    if httpOk status = false then
      tryOnFail s1 ⟨"Error".data, errDetailMsg status statusText errBody⟩ (some req)
    else
      settleOkJson s1 req jsonImage

/-- The part of `runTryOn` following garment resolution: a resolution error
is the thrown-and-caught message; a resolved uri shorter than two characters
throws `Cloth image URI is missing`; otherwise the request is assembled and
POSTed. -/
def resolvedTryOn (item : ClothingItem) (env : SubmitEnv) (s1 : AppState)
    (cacheField personField : Option Str) : Except Str Str → RunResult
  | .error msg => tryOnFail s1 ⟨"Error".data, msg⟩ none
  | .ok clothUri =>
    if strTruthy clothUri = false ∨ clothUri.length < 2 then
      tryOnFail s1 ⟨"Error".data, "Cloth image URI is missing. Try another item.".data⟩ none
    else
      settleTryOn s1 (buildReq item cacheField personField clothUri) (effectiveOutcome env)

/-- `runTryOn` of `app/try-on.tsx`.  The early return fires when
`capturedPhoto` is falsy (the screen's `clothingItem` is always present since
`getClothingById` is total).  Then: `loading := true`, the previous result
and error are cleared, the person part is the cache key when one is truthily
held and the photo file otherwise, and the garment resolution, payload
assembly and transfer settlement proceed through `resolvedTryOn`. -/
def runTryOn (item : ClothingItem) (env : SubmitEnv) (s : AppState) : RunResult :=
  if optTruthy s.capturedPhoto = false then ⟨s, none, none⟩
  else
    let s1 : AppState := { s with loading := true, resultImage := none, tryOnError := none }
    let useCache := optTruthy s1.preprocessingCacheKey
    resolvedTryOn item env s1
      (if useCache then s1.preprocessingCacheKey else none)
      (if useCache then none else s1.capturedPhoto)
      (resolveCloth env)

/-- Truthiness of the `imageBase64` view of an ok response body. -/
def jsonImageTruthy : Option (Option Str) → Bool
  | none => false
  | some img => optTruthy img

/-- Whether a transfer settlement reaches the success transition. -/
def outcomeSucceeds : FetchOutcome → Bool
  | .aborted => false
  | .settled (.netError _ _) => false
  | .settled (.response status _ jsonImage _) => httpOk status && jsonImageTruthy jsonImage

/-- Whether a garment resolution result lets the submission succeed. -/
def resolvedSucceeds (env : SubmitEnv) : Except Str Str → Bool
  | .error _ => false
  | .ok clothUri =>
    if strTruthy clothUri = false ∨ clothUri.length < 2 then false
    else outcomeSucceeds (effectiveOutcome env)

/-- Whether an environment lets `runTryOn` reach its success transition. -/
def envSucceeds (env : SubmitEnv) : Bool :=
  resolvedSucceeds env (resolveCloth env)

/-- An in-flight (or settled) `/api/preprocess-person` call, tagged with the
photo uri it was issued for. -/
structure PendingCall where
  photo : Str
  isSettled : Bool
deriving DecidableEq

/-- A try-on request that was POSTed, together with the photo held by the
screen at submission time. -/
structure SubmittedRequest where
  photo : Str
  req : TryOnRequest
deriving DecidableEq

/-- Whole-session state: the screen state, the preprocess calls started so
far, and the try-on requests POSTed so far. -/
structure World where
  app : AppState
  pending : List PendingCall
  requests : List SubmittedRequest

/-- Session events.  User taps carry the data the platform collaborator would
deliver; `preprocessArrive` delivers the settlement of the `idx`-th preprocess
call started in the session; `submitTap` runs `runTryOn` under a submission
environment. -/
inductive Event
  | captureTap
  | photoTaken (uri : Str)
  | pickPhoto (uri : Str)
  | preprocessArrive (idx : Nat) (o : PreprocessOutcome)
  | backTap
  | chooseDifferent
  | submitTap (env : SubmitEnv)
  | tryAnother

/-- Common body of `handlePhotoTaken` and the gallery-pick success branch:
store the photo, clear the previous result and cache key, go to preview, and
start `preprocessPersonImage` for the new photo (which first sets
`preprocessingLoading`). -/
def acquirePhoto (uri : Str) (w : World) : World :=
  { app := { w.app with
      capturedPhoto := some uri,
      resultImage := none,
      preprocessingCacheKey := none,
      step := .preview,
      preprocessingLoading := true },
    pending := w.pending ++ [⟨uri, false⟩],
    requests := w.requests }

/-- Delivery of a preprocess settlement for the `idx`-th call of the session:
a call settles once; on settlement the source's `.then`/`catch`/`finally`
handler (`preprocessSettle`) runs against whatever screen state currently
holds. -/
def arriveAt (o : PreprocessOutcome) (idx : Nat) (w : World) : Option PendingCall → World
  | none => w
  | some c =>
    if c.isSettled then w
    else
      { w with app := preprocessSettle o w.app,
               pending := w.pending.set idx ⟨c.photo, true⟩ }

/-- One session step.  Guards mirror where each control is rendered and
whether it is disabled: the preview buttons `Try On` and
`Choose different photo` are disabled while `loading || preprocessingLoading`,
while the header back button is always active.  An arriving preprocess
response runs the source's `.then` handler unconditionally — the handler does
not compare the response with the photo currently held. -/
def stepEvent (item : ClothingItem) (w : World) (e : Event) : World :=
  match e with
  | .captureTap =>
    if w.app.step = .choose then { w with app := { w.app with step := .camera } } else w
  | .photoTaken uri =>
    if w.app.step = .camera then acquirePhoto uri w else w
  | .pickPhoto uri =>
    if w.app.step = .choose then acquirePhoto uri w else w
  | .preprocessArrive idx o => arriveAt o idx w (w.pending.get? idx)
  | .backTap =>
    if w.app.step = .camera then { w with app := { w.app with step := .choose } }
    else if w.app.step = .preview then
      { w with app := { w.app with capturedPhoto := none, step := .choose } }
    else w
  | .chooseDifferent =>
    if w.app.step = .preview ∧ optTruthy w.app.capturedPhoto = true
        ∧ (w.app.loading || w.app.preprocessingLoading) = false then
      { w with app := { w.app with
          capturedPhoto := none, preprocessingCacheKey := none,
          step := .choose, tryOnError := none } }
    else w
  | .submitTap env =>
    if w.app.step = .preview ∧ optTruthy w.app.capturedPhoto = true
        ∧ (w.app.loading || w.app.preprocessingLoading) = false then
      let r := runTryOn item env w.app
      { app := r.state,
        pending := w.pending,
        requests := w.requests ++
          (match r.request, w.app.capturedPhoto with
            | some q, some p => [⟨p, q⟩]
            | _, _ => []) }
    else w
  | .tryAnother =>
    if w.app.step = .result ∧ optTruthy w.app.resultImage = true then
      { w with app := { w.app with resultImage := none, step := .preview } }
    else w

/-- The screen's initial React state. -/
def initialApp : AppState :=
  { step := .choose, capturedPhoto := none, resultImage := none, loading := false,
    preprocessingLoading := false, preprocessingCacheKey := none, tryOnError := none }

/-- Initial session. -/
def initialWorld : World := ⟨initialApp, [], []⟩

/-- Run a session from the initial state. -/
def runWorld (item : ClothingItem) (evts : List Event) : World :=
  evts.foldl (stepEvent item) initialWorld

/-- Key-wellformedness: the stored cache key, when present, is a truthy
(nonempty) string — the shape every reachable screen state satisfies. -/
def cacheKeyWF (s : AppState) : Prop :=
  ∀ k, s.preprocessingCacheKey = some k → strTruthy k = true

/-- Mime inference as the spec words it: `image/png` exactly when the URL's
file extension (its segment after the final dot, lowercased) is `png`, else
`image/jpeg`.  Stated for comparison against the source computation. -/
def specMimeFromUrlExt (rawUri : Str) : Str :=
  if strToLower (lastSplitDot rawUri) = "png".data then "image/png".data else "image/jpeg".data

/-- The source-side mime actually attached to a downloaded remote garment:
`mimeFor` applied to the cache file the download targets. -/
def remoteClothMime (rawUri cacheDir nowStr : Str) : Str :=
  mimeFor (remoteClothFileUri rawUri cacheDir nowStr)

/-- Screen item for the concrete stale-token session (catalog id 2). -/
def c1Item : ClothingItem := getClothingById "2".data

/-- Benign submission environment for the concrete sessions: the garment of
`c1Item` downloads fine and the server answers 200 with an image. -/
def c1Env : SubmitEnv :=
  { rawUri := "https://res.cloudinary.com/dp3vs4mxa/image/upload/v1769873233/blue_shirt_xzvm4u.png".data,
    cacheDir := "file:///cache/".data,
    nowStr := "111".data,
    download := .ok (),
    assetUri := .ok "unused".data,
    elapsedMs := 5,
    transport := .response 200 "OK".data (some (some "IMGDATA".data)) (.json none) }

/-- The stale-token session: capture photo A (its preprocess call goes in
flight), discard it with the header back button, capture photo B, let B's
preprocess call fail, then let A's late response arrive carrying `tokenA`,
then tap `Try On`. -/
def c1Trace : List Event :=
  [ .captureTap,
    .photoTaken "photoA".data,
    .backTap,
    .captureTap,
    .photoTaken "photoB".data,
    .preprocessArrive 1 (.response false false none),
    .preprocessArrive 0 (.response true true (some "tokenA".data)),
    .submitTap c1Env ]

/-- Screen item for the payload-shape witness session (catalog id 1). -/
def c2Item : ClothingItem := getClothingById "1".data

/-- Environment for the payload-shape witness: a bundled garment resolving to
a local png file, with a successful server response. -/
def c2Env : SubmitEnv :=
  { rawUri := "42".data,
    cacheDir := "file:///cache/".data,
    nowStr := "7".data,
    download := .ok (),
    assetUri := .ok "file:///assets/cloth.png".data,
    elapsedMs := 5,
    transport := .response 200 "OK".data (some (some "IMG".data)) (.json none) }

/-- Witness session for the payload shapes: capture a photo, let its
preprocess call fail (so no token is held), then tap `Try On`. -/
def c2Trace : List Event :=
  [ .captureTap,
    .photoTaken "photoP".data,
    .preprocessArrive 0 .fetchFailed,
    .submitTap c2Env ]

/-- The request `runTryOn` builds in the `c2Trace` session. -/
def c2Req : TryOnRequest :=
  { cache_key := none,
    person_image := some "photoP".data,
    cloth_image_uri := "file:///assets/cloth.png".data,
    cloth_image_mime := "image/png".data,
    cloth_image_name := "cloth.png".data,
    cloth_type := .overall }

/-- A preview-step screen state holding a photo, used by the witnesses. -/
def previewState : AppState :=
  { step := .preview, capturedPhoto := some "photoP".data, resultImage := none,
    loading := false, preprocessingLoading := false, preprocessingCacheKey := none,
    tryOnError := none }

/-- Environment whose main transfer exceeds the timeout ceiling. -/
def c3Env : SubmitEnv :=
  { c2Env with elapsedMs := TRY_ON_TIMEOUT_MS }

/-- Environment whose 200 response parses as JSON but lacks `imageBase64`. -/
def c5Env : SubmitEnv :=
  { c2Env with transport := .response 200 "OK".data (some none) (.json none) }

/-- Environment whose bundled-asset resolution yields an empty handle. -/
def c8Env : SubmitEnv :=
  { c2Env with assetUri := .ok [] }

-- ------------------------------------------------------------------
-- Lemmas about the split / last-segment string model
-- ------------------------------------------------------------------

theorem splitOnCharL_ne_nil (c : Char) (l : Str) : splitOnCharL c l ≠ [] := by
  cases l with
  | nil => simp [splitOnCharL]
  | cons a as =>
    simp only [splitOnCharL]
    cases h : splitOnCharL c as with
    | nil => simp [splitCons]
    | cons b bs =>
      simp only [splitCons]
      split <;> simp

theorem splitOnCharL_of_not_mem (c : Char) (l : Str) (h : c ∉ l) : splitOnCharL c l = [l] := by
  induction l with
  | nil => rfl
  | cons a as ih =>
    have ha : a ≠ c := fun e => h (e ▸ List.mem_cons_self a as)
    have hm : c ∉ as := fun m => h (List.mem_cons_of_mem _ m)
    have hbeq : (a == c) = false := beq_eq_false_iff_ne.mpr ha
    simp only [splitOnCharL, ih hm, splitCons]
    rw [if_neg (by simp [hbeq])]

theorem splitOnCharL_length_of_mem (c : Char) (l : Str) (h : c ∈ l) :
    2 ≤ (splitOnCharL c l).length := by
  induction l with
  | nil => cases h
  | cons a as ih =>
    simp only [splitOnCharL]
    cases hs : splitOnCharL c as with
    | nil => exact absurd hs (splitOnCharL_ne_nil c as)
    | cons b bs =>
      simp only [splitCons]
      by_cases hac : a = c
      · have ht : (a == c) = true := beq_iff_eq.mpr hac
        rw [if_pos ht]
        simp
      · have hbeq : (a == c) = false := beq_eq_false_iff_ne.mpr hac
        have hmem : c ∈ as := by
          rcases List.mem_cons.mp h with h1 | h2
          · exact absurd h1.symm hac
          · exact h2
        have hlen := ih hmem
        rw [hs] at hlen
        simp only [List.length_cons] at hlen
        rw [if_neg (by simp [hbeq])]
        simp only [List.length_cons]
        omega

theorem lastSeg_split_append (c : Char) (xs ys : Str) :
    lastSeg (splitOnCharL c (xs ++ c :: ys)) = lastSeg (splitOnCharL c ys) := by
  induction xs with
  | nil =>
    simp only [List.nil_append, splitOnCharL]
    cases hs : splitOnCharL c ys with
    | nil => exact absurd hs (splitOnCharL_ne_nil c ys)
    | cons b bs =>
      simp only [splitCons]
      rw [if_pos (by simp)]
      rfl
  | cons a as ih =>
    simp only [List.cons_append, splitOnCharL]
    cases hs : splitOnCharL c (as ++ c :: ys) with
    | nil => exact absurd hs (splitOnCharL_ne_nil c (as ++ c :: ys))
    | cons b bs =>
      rw [hs] at ih
      simp only [splitCons]
      by_cases hac : a = c
      · have ht : (a == c) = true := beq_iff_eq.mpr hac
        rw [if_pos ht]
        have h1 : lastSeg ([] :: b :: bs) = lastSeg (b :: bs) := rfl
        rw [h1, ih]
      · have hbeq : (a == c) = false := beq_eq_false_iff_ne.mpr hac
        have hmem : c ∈ as ++ c :: ys := List.mem_append_right as (List.mem_cons_self c ys)
        have hlen := splitOnCharL_length_of_mem c (as ++ c :: ys) hmem
        rw [hs] at hlen
        cases bs with
        | nil => simp at hlen
        | cons b2 bs2 =>
          rw [if_neg (by simp [hbeq])]
          have h1 : lastSeg ((a :: b) :: b2 :: bs2) = lastSeg (b2 :: bs2) := rfl
          have h2 : lastSeg (b :: b2 :: bs2) = lastSeg (b2 :: bs2) := rfl
          rw [h1, ← h2, ih]

theorem lastSplitDot_append_ext (A ext : Str) (h : '.' ∉ ext) :
    lastSplitDot (A ++ '.' :: ext) = ext := by
  unfold lastSplitDot
  rw [lastSeg_split_append, splitOnCharL_of_not_mem _ _ h]
  rfl

theorem mimeFor_append_ext (A ext : Str) (h : '.' ∉ ext) :
    mimeFor (A ++ '.' :: ext) =
      (if strToLower ext = "png".data then "image/png".data else "image/jpeg".data) := by
  unfold mimeFor
  rw [lastSplitDot_append_ext A ext h]

theorem remoteClothMime_eq (rawUri cacheDir nowStr : Str) :
    remoteClothMime rawUri cacheDir nowStr =
      (if strContains ".png".data rawUri then "image/png".data else "image/jpeg".data) := by
  unfold remoteClothMime remoteClothFileUri remoteClothExt
  by_cases h : strContains ".png".data rawUri = true
  · simp only [h, if_true]
    have hshape : cacheDir ++ "cloth-".data ++ nowStr ++ ".".data ++ "png".data
        = (cacheDir ++ "cloth-".data ++ nowStr) ++ '.' :: "png".data := by
      simp [List.append_assoc]
    rw [hshape, mimeFor_append_ext _ _ (by decide)]
    decide
  · rw [if_neg h, if_neg h]
    have hshape : cacheDir ++ "cloth-".data ++ nowStr ++ ".".data ++ "jpg".data
        = (cacheDir ++ "cloth-".data ++ nowStr) ++ '.' :: "jpg".data := by
      simp [List.append_assoc]
    rw [hshape, mimeFor_append_ext _ _ (by decide)]
    decide

-- ------------------------------------------------------------------
-- Claim theorems
-- ------------------------------------------------------------------

/-- Claim C1 (code bug, concrete failing execution): in the session `c1Trace`
the user captures photo A (its preprocess call goes in flight), discards it
via back, captures photo B, B's own preprocess call fails, and then A's late
preprocess response arrives carrying `tokenA`.  The response handler stores
the stale token unchecked, so the subsequent `Try On` submission for photo B
is POSTed with `cache_key = tokenA` — the token issued for the discarded
photo A (`pending` call 0) — and even succeeds, contradicting the mandated
stale-response suppression. -/
theorem C1_stale_preprocess_response_leaks :
    ((runWorld c1Item c1Trace).requests.map fun r => (r.photo, r.req.cache_key))
        = [("photoB".data, some "tokenA".data)]
    ∧ ((runWorld c1Item c1Trace).pending.map fun c => c.photo)
        = ["photoA".data, "photoB".data]
    ∧ (runWorld c1Item c1Trace).app.step = Step.result := by
  decide

/-- Claim C6: whenever a preprocess call settles with any failing outcome
(network error, non-ok status, ok body without a usable `success`/`cache_key`),
the handler's only state effect is clearing `preprocessingLoading`: the step,
the captured photo, the stored cache token and the error display are exactly
unchanged, and no alert is raised. -/
theorem C6_preprocess_failure_silent (s : AppState) (o : PreprocessOutcome)
    (hfail : preprocessOutcomeOk o = false) :
    preprocessSettle o s = { s with preprocessingLoading := false } := by
  cases o with
  | fetchFailed => rfl
  | response ok success cacheKey =>
    simp only [preprocessOutcomeOk] at hfail
    simp only [preprocessSettle]
    rw [if_neg (by simp [hfail])]

/-- Witness for C6 at a concrete preview state and an ok-but-keyless response. -/
theorem C6_preprocess_failure_silent_witness :
    preprocessSettle (.response true true (some [])) previewState
      = { previewState with preprocessingLoading := false } :=
  C6_preprocess_failure_silent previewState (.response true true (some [])) (by decide)

/-- Claim C7 (counterexample): the remote garment URL
`http://h/a.png/b.jpg` has file extension `jpg`, so the claimed
extension-based rule (`specMimeFromUrlExt`) labels it `image/jpeg`, yet the
source's computation attaches `image/png`, because the download-extension
choice tests `rawUri.includes('.png')` anywhere in the URL. -/
theorem C7_extension_counterexample :
    remoteClothMime "http://h/a.png/b.jpg".data "file:///cache/".data "7".data
        = "image/png".data
    ∧ specMimeFromUrlExt "http://h/a.png/b.jpg".data = "image/jpeg".data
    ∧ strStartsWith "http".data "http://h/a.png/b.jpg".data = true := by
  decide

/-- Claim C7 (amended): for every remote garment URL, the mime type attached
to the uploaded cloth image is `image/png` exactly when the URL contains the
substring `.png` anywhere (case-sensitively), and `image/jpeg` otherwise —
in particular every URL ending in `.png` gets `image/png`, but so does a URL
containing `.png` elsewhere in its path. -/
theorem C7_remote_mime_by_substring (rawUri cacheDir nowStr : Str) :
    remoteClothMime rawUri cacheDir nowStr = "image/png".data
      ↔ strContains ".png".data rawUri = true := by
  rw [remoteClothMime_eq]
  by_cases h : strContains ".png".data rawUri = true
  · rw [if_pos h]
    simp [h]
  · rw [if_neg h]
    constructor
    · intro he
      exact absurd he (by decide)
    · intro hc
      exact absurd hc h

/-- Claim C9: catalog lookup is total with a first-item fallback — when some
catalog entry carries the requested id, `getClothingById` returns it, and
when no entry does it returns the first item; and `normalizeParam` maps a
missing route parameter to `'1'`, passes strings through, and takes the head
of a nonempty string array, so the try-on screen always resolves an item. -/
theorem C9_catalog_lookup_total (id : Str) :
    (∀ item, item ∈ CLOTHING_ITEMS → item.id = id → getClothingById id = item)
    ∧ ((∀ item, item ∈ CLOTHING_ITEMS → item.id ≠ id)
        → getClothingById id = CLOTHING_ITEMS.get ⟨0, by decide⟩)
    ∧ normalizeParam RouteParam.missing = "1".data
    ∧ (∀ s, normalizeParam (RouteParam.single s) = s)
    ∧ (∀ x l, normalizeParam (RouteParam.multiple (x :: l)) = x) := by
  refine ⟨?_, ?_, rfl, fun s => rfl, fun x l => rfl⟩
  · intro item hmem hid
    subst hid
    fin_cases hmem <;> decide
  · intro hall
    have hnone : CLOTHING_ITEMS.find? (fun it => it.id == id) = none := by
      rw [List.find?_eq_none]
      intro it hmem hbeq
      exact hall it hmem (beq_iff_eq.mp hbeq)
    unfold getClothingById
    rw [hnone]
    rfl

/-- Witness for C9: id `3` resolves to the third catalog entry, and a missing
route parameter normalizes to `'1'`. -/
theorem C9_catalog_lookup_total_witness :
    getClothingById "3".data = CLOTHING_ITEMS.get ⟨2, by decide⟩
    ∧ normalizeParam RouteParam.missing = "1".data :=
  ⟨(C9_catalog_lookup_total "3".data).1 (CLOTHING_ITEMS.get ⟨2, by decide⟩)
      (by decide) (by decide),
    (C9_catalog_lookup_total "3".data).2.2.1⟩

/-- Claim C3: when a submission's main transfer does not settle within
`TRY_ON_TIMEOUT_MS` (180 s), the abort controller cancels it, the user is
alerted with the dedicated timed-out message (not a generic error), the
screen stays in the preview step with the error recorded, and no result
image is applied. -/
theorem C3_timeout_behaviour (item : ClothingItem) (s : AppState) (env : SubmitEnv) (u : Str)
    (hstep : s.step = Step.preview)
    (hphoto : optTruthy s.capturedPhoto = true)
    (hres : resolveCloth env = Except.ok u)
    (hlen : 2 ≤ u.length)
    (htime : TRY_ON_TIMEOUT_MS ≤ env.elapsedMs) :
    (runTryOn item env s).alertMsg = some timeoutAlertMsg
    ∧ (runTryOn item env s).state.step = Step.preview
    ∧ (runTryOn item env s).state.resultImage = none
    ∧ (runTryOn item env s).request.isSome = true
    ∧ (runTryOn item env s).state.tryOnError.isSome = true := by
  have hcond : ¬ (strTruthy u = false ∨ u.length < 2) := by
    rcases u with _ | ⟨c, cs⟩
    · simp at hlen
    · simp only [strTruthy, List.isEmpty_cons, Bool.not_false, not_or]
      refine ⟨by simp, by simp at hlen ⊢; omega⟩
  have habort : effectiveOutcome env = .aborted := by
    simp [effectiveOutcome, htime]
  unfold runTryOn
  simp [hphoto, hres, habort, hcond, tryOnFail, shortMsgFor, hstep,
    resolvedTryOn, settleTryOn]

/-- Witness for C3: a concrete preview state and an environment at the
timeout ceiling. -/
theorem C3_timeout_behaviour_witness :
    (runTryOn c2Item c3Env previewState).alertMsg = some timeoutAlertMsg
    ∧ (runTryOn c2Item c3Env previewState).state.step = Step.preview
    ∧ (runTryOn c2Item c3Env previewState).state.resultImage = none
    ∧ (runTryOn c2Item c3Env previewState).request.isSome = true
    ∧ (runTryOn c2Item c3Env previewState).state.tryOnError.isSome = true :=
  C3_timeout_behaviour c2Item previewState c3Env "file:///assets/cloth.png".data
    (by decide) (by decide) (by decide) (by decide) (by decide)

/-- Every failing submission lands in the catch block applied to the state
with `loading` raised and the previous result and error cleared. -/
theorem runTryOn_fail_shape (item : ClothingItem) (env : SubmitEnv) (s : AppState)
    (hphoto : optTruthy s.capturedPhoto = true)
    (hfail : envSucceeds env = false) :
    ∃ e req, runTryOn item env s =
      tryOnFail { s with loading := true, resultImage := none, tryOnError := none } e req := by
  unfold envSucceeds at hfail
  unfold runTryOn
  rw [if_neg (by simp [hphoto])]
  cases hres : resolveCloth env with
  | error m =>
    simp only [resolvedTryOn]
    exact ⟨_, _, rfl⟩
  | ok u =>
    rw [hres] at hfail
    simp only [resolvedSucceeds] at hfail
    simp only [resolvedTryOn]
    by_cases hcond : (strTruthy u = false ∨ u.length < 2)
    · rw [if_pos hcond]
      exact ⟨_, _, rfl⟩
    · rw [if_neg hcond]
      rw [if_neg hcond] at hfail
      cases hout : effectiveOutcome env with
      | aborted =>
        simp only [settleTryOn]
        exact ⟨_, _, rfl⟩
      | settled t =>
        rw [hout] at hfail
        cases t with
        | netError n m =>
          simp only [settleTryOn]
          exact ⟨_, _, rfl⟩
        | response status statusText jsonImage errBody =>
          simp only [outcomeSucceeds] at hfail
          simp only [settleTryOn]
          by_cases hok : httpOk status = false
          · rw [if_pos hok]
            exact ⟨_, _, rfl⟩
          · rw [if_neg hok]
            cases jsonImage with
            | none =>
              simp only [settleOkJson]
              exact ⟨_, _, rfl⟩
            | some img =>
              have hok2 : httpOk status = true := by
                cases h2 : httpOk status
                · exact absurd h2 hok
                · rfl
              have himg : optTruthy img = false := by
                simp only [hok2, Bool.true_and, jsonImageTruthy] at hfail
                exact hfail
              simp only [settleOkJson]
              rw [if_neg (by simp [himg])]
              exact ⟨_, _, rfl⟩

/-- Claim C4: every failing submission attempt — garment resolution failure
or any try-on request failure — leaves the workflow in the preview step with
an error recorded and alerted, keeps the captured photo untouched so the
user can retry without recapturing, and never applies a result image. -/
theorem C4_failure_atomicity (item : ClothingItem) (s : AppState) (env : SubmitEnv)
    (hstep : s.step = Step.preview)
    (hphoto : optTruthy s.capturedPhoto = true)
    (hfail : envSucceeds env = false) :
    (runTryOn item env s).state.step = Step.preview
    ∧ (runTryOn item env s).state.capturedPhoto = s.capturedPhoto
    ∧ (runTryOn item env s).state.resultImage = none
    ∧ (runTryOn item env s).state.tryOnError.isSome = true
    ∧ (runTryOn item env s).alertMsg.isSome = true := by
  obtain ⟨e, req, hr⟩ := runTryOn_fail_shape item env s hphoto hfail
  rw [hr]
  simp [tryOnFail, hstep]

/-- Witness for C4: a concrete failing attempt (the bundled garment resolves
to an empty handle). -/
theorem C4_failure_atomicity_witness :
    (runTryOn c2Item c8Env previewState).state.step = Step.preview
    ∧ (runTryOn c2Item c8Env previewState).state.capturedPhoto = previewState.capturedPhoto
    ∧ (runTryOn c2Item c8Env previewState).state.resultImage = none
    ∧ (runTryOn c2Item c8Env previewState).state.tryOnError.isSome = true
    ∧ (runTryOn c2Item c8Env previewState).alertMsg.isSome = true :=
  C4_failure_atomicity c2Item previewState c8Env (by decide) (by decide) (by decide)

/-- Claim C5: an HTTP-successful try-on response whose JSON body lacks the
`imageBase64` field fails as a malformed response — the dedicated
`Invalid response: no image` error is raised and alerted — and the screen
stays in the preview step with no result applied. -/
theorem C5_malformed_response (item : ClothingItem) (s : AppState) (env : SubmitEnv)
    (u : Str) (status : Nat) (statusText : Str) (errBody : ErrBody)
    (hstep : s.step = Step.preview)
    (hphoto : optTruthy s.capturedPhoto = true)
    (hres : resolveCloth env = Except.ok u)
    (hlen : 2 ≤ u.length)
    (htime : env.elapsedMs < TRY_ON_TIMEOUT_MS)
    (htrans : env.transport = Transport.response status statusText (some none) errBody)
    (hok : httpOk status = true) :
    (runTryOn item env s).alertMsg = some "Invalid response: no image".data
    ∧ (runTryOn item env s).state.step = Step.preview
    ∧ (runTryOn item env s).state.resultImage = none
    ∧ (runTryOn item env s).state.tryOnError.isSome = true := by
  have hcond : ¬ (strTruthy u = false ∨ u.length < 2) := by
    rcases u with _ | ⟨c, cs⟩
    · simp at hlen
    · simp only [strTruthy, List.isEmpty_cons, Bool.not_false, not_or]
      refine ⟨by simp, by simp at hlen ⊢; omega⟩
  have hsettle : effectiveOutcome env
      = .settled (Transport.response status statusText (some none) errBody) := by
    unfold effectiveOutcome
    rw [if_neg (Nat.not_le.mpr htime), htrans]
  have hshort : shortMsgFor ⟨"Error".data, "Invalid response: no image".data⟩
      = "Invalid response: no image".data := by decide
  have hnone : optTruthy (none : Option Str) = false := rfl
  unfold runTryOn
  simp [hphoto, hres, hcond, hsettle, hok, tryOnFail, hstep,
    resolvedTryOn, settleTryOn, settleOkJson, hnone, hshort]

/-- Witness for C5: a concrete preview state and a 200 response whose body
parses but has no `imageBase64`. -/
theorem C5_malformed_response_witness :
    (runTryOn c2Item c5Env previewState).alertMsg = some "Invalid response: no image".data
    ∧ (runTryOn c2Item c5Env previewState).state.step = Step.preview
    ∧ (runTryOn c2Item c5Env previewState).state.resultImage = none
    ∧ (runTryOn c2Item c5Env previewState).state.tryOnError.isSome = true :=
  C5_malformed_response c2Item previewState c5Env "file:///assets/cloth.png".data
    200 "OK".data (.json none) (by decide) (by decide) (by decide) (by decide)
    (by decide) (by decide) (by decide)

/-- Claim C8: a garment reference whose resolution yields an empty local
handle fails like a resolution failure — the submission throws
`Could not load cloth image: Asset has no localUri or uri` before any request
is POSTed, stays in the preview step, and surfaces the error. -/
theorem C8_empty_resolution_rejected (item : ClothingItem) (s : AppState) (env : SubmitEnv)
    (hstep : s.step = Step.preview)
    (hphoto : optTruthy s.capturedPhoto = true)
    (hnohttp : strStartsWith "http".data env.rawUri = false)
    (hempty : env.assetUri = Except.ok []) :
    (runTryOn item env s).request = none
    ∧ (runTryOn item env s).alertMsg
        = some "Could not load cloth image: Asset has no localUri or uri".data
    ∧ (runTryOn item env s).state.step = Step.preview
    ∧ (runTryOn item env s).state.tryOnError.isSome = true := by
  have hres : resolveCloth env
      = Except.error "Could not load cloth image: Asset has no localUri or uri".data := by
    unfold resolveCloth
    rw [if_neg (by simp [hnohttp]), hempty]
    rfl
  have hshort : shortMsgFor ⟨"Error".data,
        "Could not load cloth image: Asset has no localUri or uri".data⟩
      = "Could not load cloth image: Asset has no localUri or uri".data := by decide
  unfold runTryOn
  simp [hphoto, hres, tryOnFail, hstep, resolvedTryOn, hshort]

/-- Witness for C8: a concrete preview state and an environment whose bundled
asset resolves to the empty handle. -/
theorem C8_empty_resolution_rejected_witness :
    (runTryOn c2Item c8Env previewState).request = none
    ∧ (runTryOn c2Item c8Env previewState).alertMsg
        = some "Could not load cloth image: Asset has no localUri or uri".data
    ∧ (runTryOn c2Item c8Env previewState).state.step = Step.preview
    ∧ (runTryOn c2Item c8Env previewState).state.tryOnError.isSome = true :=
  C8_empty_resolution_rejected c2Item previewState c8Env
    (by decide) (by decide) (by decide) (by decide)

/-- Claim C10: every successful submission stores exactly the string
`data:image/jpeg;base64,` concatenated with the server's `imageBase64`
payload — always labelled jpeg, whatever the encoded format — clears the
pending error display in the same success path, and enters the result step. -/
theorem C10_result_always_jpeg (item : ClothingItem) (s : AppState) (env : SubmitEnv)
    (u img : Str) (status : Nat) (statusText : Str) (errBody : ErrBody)
    (hphoto : optTruthy s.capturedPhoto = true)
    (hres : resolveCloth env = Except.ok u)
    (hlen : 2 ≤ u.length)
    (htime : env.elapsedMs < TRY_ON_TIMEOUT_MS)
    (htrans : env.transport = Transport.response status statusText (some (some img)) errBody)
    (hok : httpOk status = true)
    (himg : strTruthy img = true) :
    (runTryOn item env s).state.resultImage
        = some ("data:image/jpeg;base64,".data ++ img)
    ∧ (runTryOn item env s).state.tryOnError = none
    ∧ (runTryOn item env s).state.step = Step.result
    ∧ (runTryOn item env s).alertMsg = none := by
  have hcond : ¬ (strTruthy u = false ∨ u.length < 2) := by
    rcases u with _ | ⟨c, cs⟩
    · simp at hlen
    · simp only [strTruthy, List.isEmpty_cons, Bool.not_false, not_or]
      refine ⟨by simp, by simp at hlen ⊢; omega⟩
  have hsettle : effectiveOutcome env
      = .settled (Transport.response status statusText (some (some img)) errBody) := by
    unfold effectiveOutcome
    rw [if_neg (Nat.not_le.mpr htime), htrans]
  have hsome : optTruthy (some img) = true := himg
  unfold runTryOn
  simp [hphoto, hres, hcond, hsettle, hok, resolvedTryOn, settleTryOn,
    settleOkJson, hsome]

/-- Witness for C10: a concrete preview state and a successful 200 response
carrying `IMG` as the payload. -/
theorem C10_result_always_jpeg_witness :
    (runTryOn c2Item c2Env previewState).state.resultImage
        = some ("data:image/jpeg;base64,".data ++ "IMG".data)
    ∧ (runTryOn c2Item c2Env previewState).state.tryOnError = none
    ∧ (runTryOn c2Item c2Env previewState).state.step = Step.result
    ∧ (runTryOn c2Item c2Env previewState).alertMsg = none :=
  C10_result_always_jpeg c2Item previewState c2Env "file:///assets/cloth.png".data
    "IMG".data 200 "OK".data (.json none) (by decide) (by decide) (by decide)
    (by decide) (by decide) (by decide) (by decide)

/-- Once the body is read, every branch keeps the request that was POSTed. -/
theorem settleOkJson_request (s1 : AppState) (req : TryOnRequest) (ji : Option (Option Str)) :
    (settleOkJson s1 req ji).request = some req := by
  cases ji with
  | none => rfl
  | some img =>
    simp only [settleOkJson]
    split <;> simp [tryOnFail]

/-- Every transfer settlement keeps the request that was POSTed. -/
theorem settleTryOn_request (s1 : AppState) (req : TryOnRequest) (o : FetchOutcome) :
    (settleTryOn s1 req o).request = some req := by
  cases o with
  | aborted => rfl
  | settled t =>
    cases t with
    | netError n m => rfl
    | response status statusText jsonImage errBody =>
      simp only [settleTryOn]
      split
      · simp [tryOnFail]
      · exact settleOkJson_request s1 req jsonImage

/-- Whenever `runTryOn` POSTs a request, the photo was truthily held and the
person part of the request is exactly the truthiness-based choice the source
makes between the stored cache key and the photo file. -/
theorem runTryOn_request_shape (item : ClothingItem) (env : SubmitEnv) (s : AppState)
    (req : TryOnRequest) (h : (runTryOn item env s).request = some req) :
    optTruthy s.capturedPhoto = true
    ∧ req.cache_key
        = (if optTruthy s.preprocessingCacheKey = true then s.preprocessingCacheKey else none)
    ∧ req.person_image
        = (if optTruthy s.preprocessingCacheKey = true then none else s.capturedPhoto) := by
  unfold runTryOn at h
  by_cases hphoto : optTruthy s.capturedPhoto = false
  · rw [if_pos hphoto] at h
    simp at h
  · rw [if_neg hphoto] at h
    have hp : optTruthy s.capturedPhoto = true := by
      cases h2 : optTruthy s.capturedPhoto
      · exact absurd h2 hphoto
      · rfl
    refine ⟨hp, ?_⟩
    cases hres : resolveCloth env with
    | error m =>
      rw [hres] at h
      simp [resolvedTryOn, tryOnFail] at h
    | ok u =>
      rw [hres] at h
      simp only [resolvedTryOn] at h
      by_cases hcond : (strTruthy u = false ∨ u.length < 2)
      · rw [if_pos hcond] at h
        simp [tryOnFail] at h
      · rw [if_neg hcond] at h
        rw [settleTryOn_request] at h
        rw [Option.some.injEq] at h
        subst h
        exact ⟨rfl, rfl⟩

/-- `runTryOn` never writes the preprocessing cache key. -/
theorem runTryOn_preserves_cacheKey (item : ClothingItem) (env : SubmitEnv) (s : AppState) :
    (runTryOn item env s).state.preprocessingCacheKey = s.preprocessingCacheKey := by
  unfold runTryOn
  by_cases hphoto : optTruthy s.capturedPhoto = false
  · rw [if_pos hphoto]
  · rw [if_neg hphoto]
    cases hres : resolveCloth env with
    | error m => simp [resolvedTryOn, tryOnFail]
    | ok u =>
      simp only [resolvedTryOn]
      split
      · simp [tryOnFail]
      · cases hout : effectiveOutcome env with
        | aborted => simp [settleTryOn, tryOnFail]
        | settled t =>
          cases t with
          | netError n m => simp [settleTryOn, tryOnFail]
          | response status statusText jsonImage errBody =>
            simp only [settleTryOn]
            split
            · simp [tryOnFail]
            · cases jsonImage with
              | none => simp [settleOkJson, tryOnFail]
              | some img =>
                simp only [settleOkJson]
                split <;> simp [tryOnFail]

/-- The preprocess settlement handler only ever stores a truthy cache key. -/
theorem preprocessSettle_cacheKeyWF (o : PreprocessOutcome) (s : AppState)
    (h : cacheKeyWF s) : cacheKeyWF (preprocessSettle o s) := by
  cases o with
  | fetchFailed => exact fun k hk => h k hk
  | response ok success cacheKey =>
    simp only [preprocessSettle]
    split
    · rename_i hc
      intro k hk
      have hk2 : cacheKey = some k := hk
      have htr : optTruthy cacheKey = true := by
        cases hbk : optTruthy cacheKey
        · rw [hbk] at hc
          simp at hc
        · rfl
      rw [hk2] at htr
      exact htr
    · exact fun k hk => h k hk

/-- Every session step preserves key-wellformedness. -/
theorem stepEvent_cacheKeyWF (item : ClothingItem) (w : World) (e : Event)
    (h : cacheKeyWF w.app) : cacheKeyWF (stepEvent item w e).app := by
  cases e with
  | captureTap =>
    simp only [stepEvent]
    split
    · exact fun k hk => h k hk
    · exact h
  | photoTaken uri =>
    simp only [stepEvent]
    split
    · exact fun k hk => absurd (show (none : Option Str) = some k from hk) (by simp)
    · exact h
  | pickPhoto uri =>
    simp only [stepEvent]
    split
    · exact fun k hk => absurd (show (none : Option Str) = some k from hk) (by simp)
    · exact h
  | preprocessArrive idx o =>
    simp only [stepEvent]
    cases hg : w.pending.get? idx with
    | none => exact h
    | some c =>
      show cacheKeyWF (arriveAt o idx w (some c)).app
      simp only [arriveAt]
      split
      · exact h
      · exact preprocessSettle_cacheKeyWF o w.app h
  | backTap =>
    simp only [stepEvent]
    split
    · exact fun k hk => h k hk
    · split
      · exact fun k hk => h k hk
      · exact h
  | chooseDifferent =>
    simp only [stepEvent]
    split
    · exact fun k hk => absurd (show (none : Option Str) = some k from hk) (by simp)
    · exact h
  | submitTap env =>
    simp only [stepEvent]
    split
    · intro k hk
      have hk2 : (runTryOn item env w.app).state.preprocessingCacheKey = some k := hk
      rw [runTryOn_preserves_cacheKey] at hk2
      exact h k hk2
    · exact h
  | tryAnother =>
    simp only [stepEvent]
    split
    · exact fun k hk => h k hk
    · exact h

/-- Every reachable session state is key-wellformed. -/
theorem runWorld_cacheKeyWF (item : ClothingItem) (evts : List Event) :
    cacheKeyWF (runWorld item evts).app := by
  have main : ∀ w, cacheKeyWF w.app
      → cacheKeyWF (List.foldl (stepEvent item) w evts).app := by
    induction evts with
    | nil => exact fun w h => h
    | cons e es ih =>
      intro w h
      exact ih _ (stepEvent_cacheKeyWF item w e h)
  refine main initialWorld ?_
  intro k hk
  exact absurd (show (none : Option Str) = some k from hk) (by simp)

/-- Claim C2: in every reachable session state, a submission started by
`runTryOn` builds mutually exclusive payload shapes — when a cache token is
held the request carries `cache_key` and no person photo file; when none is
held it carries the person photo file and no `cache_key`; never both and
never neither. -/
theorem C2_payload_mutually_exclusive (item : ClothingItem) (evts : List Event)
    (env : SubmitEnv) (req : TryOnRequest)
    (h : (runTryOn item env (runWorld item evts).app).request = some req) :
    (∃ k, (runWorld item evts).app.preprocessingCacheKey = some k
        ∧ req.cache_key = some k ∧ req.person_image = none)
    ∨ ((runWorld item evts).app.preprocessingCacheKey = none
        ∧ req.cache_key = none ∧ ∃ p, req.person_image = some p) := by
  obtain ⟨hphoto, hck, hpi⟩ := runTryOn_request_shape item env _ req h
  have hwf := runWorld_cacheKeyWF item evts
  cases hkey : (runWorld item evts).app.preprocessingCacheKey with
  | none =>
    right
    rw [hkey] at hck hpi
    refine ⟨rfl, by simpa [optTruthy] using hck, ?_⟩
    cases hp : (runWorld item evts).app.capturedPhoto with
    | none =>
      rw [hp] at hphoto
      simp [optTruthy] at hphoto
    | some p =>
      rw [hp] at hpi
      exact ⟨p, by simpa [optTruthy] using hpi⟩
  | some k =>
    left
    have hk : strTruthy k = true := hwf k hkey
    rw [hkey] at hck hpi
    simp only [optTruthy, hk, if_true] at hck hpi
    exact ⟨k, rfl, hck, hpi⟩

/-- Witness for C2: the concrete `c2Trace` session (no token held) submits
with the person photo file and no `cache_key`. -/
theorem C2_payload_mutually_exclusive_witness :
    (∃ k, (runWorld c2Item c2Trace).app.preprocessingCacheKey = some k
        ∧ c2Req.cache_key = some k ∧ c2Req.person_image = none)
    ∨ ((runWorld c2Item c2Trace).app.preprocessingCacheKey = none
        ∧ c2Req.cache_key = none ∧ ∃ p, c2Req.person_image = some p) :=
  C2_payload_mutually_exclusive c2Item c2Trace c2Env c2Req (by decide)

end VirtualTryOn
